import Mathlib

/-!
Shallow embedding of `src/src/lib-components/vue-webrtc.vue` (the single
source file of the Vue-WebRTC component).  The component's `setup` closure
is modelled piecewise: the signaling handlers registered in `joinRoom`
(the `request` handler and `connectToPeer`), the stream registry updated by
`joinedRoom`, `leaveRoom`, and `capture`/`getCanvas`.  External browser
APIs (RTCPeerConnection, canvas) are modelled only through the effects the
component code observes on them.
-/

namespace VueWebRTC

/-- Messages the component emits on the socket (`socket.value.emit`). -/
inductive OutMsg where
  | offer (target : String)
  | answer (target : String)
  | iceCandidate (target : String)
  | discover (roomId : String)
deriving DecidableEq

/-- Events the component emits to its consumer (`emit(...)`). -/
inductive Event where
  | socketError
  | mediaError
  | openedRoom (roomId : String)
  | joinedRoom (streamId : String)
  | leftRoom (id : String)
  | peerError
  | shareStarted (streamId : String)
deriving DecidableEq

/-- Console output produced by the component (`console.error` / `console.warn`). -/
inductive ConsoleLine where
  | error (msg : String)
  | warn (msg : String)
deriving DecidableEq

/-! ## Stream registry (`videoList` and `joinedRoom`, lines 330-354) -/

/-- One entry of `videoList`: the object pushed by `joinedRoom`
(the `stream` field is represented by its `id`). -/
structure VideoEntry where
  id : String
  muted : Bool
  isLocal : Bool
deriving DecidableEq

/-- Registry update performed by `joinedRoom`: `find` an entry with the
stream's id; only when none is `found`, push a new entry. -/
def joinedRoomUpdate (vl : List VideoEntry) (streamId : String) (isLocal : Bool) :
    List VideoEntry :=
  if vl.any (fun v => v.id == streamId) then vl
  else vl ++ [{ id := streamId, muted := isLocal, isLocal := isLocal }]

/-- Outcome of one `joinedRoom(stream, isLocal)` call: the registry after
the call, the events that were actually emitted, and the error the call
raised, if any. -/
structure JoinedRoomResult where
  videoList : List VideoEntry
  events : List Event
  thrown : Option String
deriving DecidableEq

/-- Full effect of one `joinedRoom(stream, isLocal)` call.  The conditional
push (lines 331-342) completes first.  Line 345 then evaluates the
identifier `nextTick`, which line 12 never imports from 'vue' (only
`defineComponent, ref, onMounted, onBeforeUnmount`) and which is defined
nowhere in the module, so the call throws a ReferenceError there; the
`emit('joined-room', stream.id)` at line 353 is unreachable and no event is
emitted. -/
def joinedRoom (vl : List VideoEntry) (streamId : String) (isLocal : Bool) :
    JoinedRoomResult :=
  { videoList := joinedRoomUpdate vl streamId isLocal,
    events := [],
    thrown := some "ReferenceError: nextTick is not defined" }

/-- Number of registry entries carrying a given stream identifier. -/
def countId (vl : List VideoEntry) (streamId : String) : Nat :=
  (vl.filter (fun v => v.id == streamId)).length

/-! ## Per-peer connection state and socket handlers -/

/-- State of one `RTCPeerConnection` as the component drives it: the peer it
targets, whether local tracks were attached (`addTrack` loop), the local and
remote session descriptions, and the list of ICE candidates passed to
`addIceCandidate`, in call order (an applied candidate is recorded each time
it is applied). -/
structure ConnState where
  peerId : String
  tracksAttached : Bool
  localDesc : Option String
  remoteDesc : Option String
  applied : List String
deriving DecidableEq

/-- Incoming socket messages relevant to one peer connection.  `candidate`
is `none` when the message carries no candidate payload (the handlers test
`data.candidate`). -/
inductive InMsg where
  | answer (socketId : String) (sdp : String)
  | iceCandidate (socketId : String) (candidate : Option String)
deriving DecidableEq

/-- Effect of the socket handlers registered by the `request` branch
(lines 201-220): one `answer` handler calling `setRemoteDescription` when
`data.socketId === request.socketId`, and one `ice-candidate` handler
calling `addIceCandidate` when the id matches and a candidate is present.
No queueing: the candidate is applied at once, whatever `remoteDesc` is. -/
def reqConnStep (s : ConnState) (m : InMsg) : ConnState :=
  match m with
  | InMsg.answer sid sdp =>
      if sid = s.peerId then { s with remoteDesc := some sdp } else s
  | InMsg.iceCandidate sid (some c) =>
      if sid = s.peerId then { s with applied := s.applied ++ [c] } else s
  | InMsg.iceCandidate _ none => s

/-- Effect of the socket handlers registered by `connectToPeer`
(lines 253-290): an `answer` handler, and TWO identical `ice-candidate`
handlers (registered at lines 253 and 282), so one matching message causes
two `addIceCandidate` calls.  Again no queueing. -/
def connStep (s : ConnState) (m : InMsg) : ConnState :=
  match m with
  | InMsg.answer sid sdp =>
      if sid = s.peerId then { s with remoteDesc := some sdp } else s
  | InMsg.iceCandidate sid (some c) =>
      if sid = s.peerId then { s with applied := s.applied ++ [c, c] } else s
  | InMsg.iceCandidate _ none => s

/-- Synchronous effect of the `request` handler (lines 161-226) for a
request from `fromPeer`, with `offerSdp` the description returned by
`createOffer`: a fresh connection with local tracks attached, the offer set
as LOCAL description, no remote description, and the messages emitted
— exactly one `offer` addressed back to the requester. -/
def requestHandler (fromPeer offerSdp : String) : ConnState × List OutMsg :=
  ({ peerId := fromPeer, tracksAttached := true, localDesc := some offerSdp,
     remoteDesc := none, applied := [] },
   [OutMsg.offer fromPeer])

/-- Connection state right after `connectToPeer peerID` runs (lines 228-305):
tracks attached, `createOffer` result set as local description, no remote
description, no candidate applied yet. -/
def connectToPeerConn (peerID offerSdp : String) : ConnState :=
  { peerId := peerID, tracksAttached := true, localDesc := some offerSdp,
    remoteDesc := none, applied := [] }

/-! ## Session-level connection creation (`discover` and `request` handlers) -/

/-- Negotiation role of a created connection. -/
inductive Role where
  | initiator
  | responder
deriving DecidableEq

/-- A created peer connection as the session sees it. -/
structure SessConn where
  peerId : String
  role : Role
deriving DecidableEq

/-- Session effect of one `connectToPeer peerID` call: unless `peerID` is
self, a NEW connection is appended (no lookup of an existing one) and one
`offer` is emitted; the role is initiator since the call creates and sends
the offer. -/
def connectToPeerSess (selfId : String) (st : List SessConn × List OutMsg)
    (peerID : String) : List SessConn × List OutMsg :=
  if peerID = selfId then st
  else (st.1 ++ [{ peerId := peerID, role := Role.initiator }],
        st.2 ++ [OutMsg.offer peerID])

/-- Session effect of the `discover` handler (lines 149-159): for each
listed peer distinct from `socket.value.id`, call `connectToPeer`. -/
def discoverHandler (selfId : String) (peers : List String)
    (st : List SessConn × List OutMsg) : List SessConn × List OutMsg :=
  peers.foldl (connectToPeerSess selfId) st

/-- Session effect of the `request` handler (lines 161-226): a new
connection is created unconditionally (no existence check, no self check)
and one `offer` is emitted to the requester, so the created connection is
in the initiator role. -/
def requestHandlerSess (fromPeer : String) (st : List SessConn × List OutMsg) :
    List SessConn × List OutMsg :=
  (st.1 ++ [{ peerId := fromPeer, role := Role.initiator }],
   st.2 ++ [OutMsg.offer fromPeer])

/-- Number of session connections owned by a given peer identity. -/
def countConns (cs : List SessConn) (p : String) : Nat :=
  (cs.filter (fun c => c.peerId == p)).length

/-! ## leaveRoom (lines 356-374) -/

/-- A registered stream as `leaveRoom` sees it: its id and how many tracks
`getTracks()` returns. -/
structure LeaveStream where
  id : String
  trackCount : Nat
deriving DecidableEq

/-- Observable outcome of one `leaveRoom` call. -/
structure LeaveResult where
  stopOps : Nat
  videoList : List LeaveStream
  closeOps : Nat
  conns : List SessConn
  disconnectCalled : Bool
  events : List Event
deriving DecidableEq

/-- Effect of `leaveRoom`: stop every track of every registered stream
(`forEach`/`forEach` loop), clear `videoList`, call `socket.disconnect()`
when a socket exists, and emit `left-room` with the room id.  The body
contains no operation on any peer connection: `closeOps` is `0` and the
connection list is returned untouched. -/
def leaveRoom (roomId : String) (vl : List LeaveStream) (conns : List SessConn)
    (socketConnected : Bool) : LeaveResult :=
  { stopOps := vl.foldl (fun n v => n + v.trackCount) 0,
    videoList := [],
    closeOps := 0,
    conns := conns,
    disconnectCalled := socketConnected,
    events := [Event.leftRoom roomId] }

/-- Total number of tracks across a list of registered streams. -/
def totalTracks (vl : List LeaveStream) : Nat :=
  (vl.map (fun v => v.trackCount)).sum

/-! ## joinRoom authentication guard (lines 100-111) -/

/-- Observable start of a `joinRoom` call: whether `io(...)` was reached,
plus the console output and consumer events produced up to that point. -/
structure JoinStart where
  socketOpened : Bool
  console : List ConsoleLine
  events : List Event
deriving DecidableEq

/-- Effect of the guard at the top of `joinRoom`: with no `jwtToken`, it
logs `console.error("JWT Token is Required")` and returns before `io(...)`
is called; it emits nothing.  With a token it proceeds to open the socket. -/
def joinRoomAuth (jwtToken : Option String) : JoinStart :=
  match jwtToken with
  | none =>
      { socketOpened := false,
        console := [ConsoleLine.error "JWT Token is Required"],
        events := [] }
  | some _ => { socketOpened := true, console := [], events := [] }

/-! ## Error-path outcomes (the catch blocks) -/

/-- Outcome of an awaited `setRemoteDescription` inside its try/catch
(lines 203-207 and 274-278): on failure, a console error and nothing else. -/
def setRemoteDescOutcome (ok : Bool) : List ConsoleLine × List Event :=
  if ok then ([], [])
  else ([ConsoleLine.error "Error setting remote description: "], [])

/-- Outcome of an awaited `addIceCandidate` inside its try/catch
(lines 214-218, 255-259, 284-288): on failure, a console error only. -/
def addIceCandidateOutcome (ok : Bool) : List ConsoleLine × List Event :=
  if ok then ([], [])
  else ([ConsoleLine.error "Error adding ICE candidate: "], [])

/-- Outcome of the outer catch of the `request` handler (lines 222-224). -/
def acceptRequestCatch (ok : Bool) : List ConsoleLine × List Event :=
  if ok then ([], [])
  else ([ConsoleLine.error "Error accepting peer request:"], [])

/-- Outcome of the outer catch of `connectToPeer` (lines 302-304). -/
def connectToPeerCatch (ok : Bool) : List ConsoleLine × List Event :=
  if ok then ([], [])
  else ([ConsoleLine.error "Error connecting to peer:"], [])

/-! ## capture / getCanvas (lines 376-394) -/

/-- A rendered video element, reduced to the dimensions `getCanvas` reads. -/
structure VideoElem where
  clientHeight : Nat
  clientWidth : Nat
deriving DecidableEq

/-- A canvas as produced by `getCanvas`. -/
structure Canvas where
  height : Nat
  width : Nat
deriving DecidableEq

/-- Effect of `getCanvas`: with an empty `videos` list it warns and returns
null (`none`); otherwise it builds a canvas sized to the first video element
and draws the frame into it. -/
def getCanvas (videos : List VideoElem) : Option Canvas × List ConsoleLine :=
  match videos with
  | [] => (none, [ConsoleLine.warn "No video element found for capturing."])
  | v :: _ =>
      (some { height := v.clientHeight, width := v.clientWidth }, [])

/-- Model of the external browser API `HTMLCanvasElement.toDataURL`: returns
a data URL whose MIME type is the requested format. -/
def Canvas.toDataURL (c : Canvas) (format : String) : String :=
  "data:" ++ format ++ ";base64," ++ toString c.width ++ "x" ++ toString c.height

/-- Effect of `capture`: it calls `toDataURL` on `getCanvas()`'s result
unconditionally, so a null canvas raises a TypeError (modelled as
`Except.error`) instead of returning a value. -/
def capture (videos : List VideoElem) (format : String) : Except String String :=
  match (getCanvas videos).1 with
  | none => Except.error "TypeError: getCanvas returned null"
  | some c => Except.ok (c.toDataURL format)

/-! ## Helper lemmas -/

/-- Running the `discover` handler over a list of peers all distinct from
self appends one initiator connection and one `offer` per listed peer, in
list order. -/
theorem discoverHandler_all_new (selfId : String) (peers : List String) :
    ∀ st : List SessConn × List OutMsg, (∀ p ∈ peers, p ≠ selfId) →
      discoverHandler selfId peers st =
        (st.1 ++ peers.map (fun p => { peerId := p, role := Role.initiator }),
         st.2 ++ peers.map OutMsg.offer) := by
  induction peers with
  | nil => intro st _; simp [discoverHandler]
  | cons p ps ih =>
    intro st h
    have hp : p ≠ selfId := h p (List.mem_cons_self p ps)
    have h2 : ∀ q ∈ ps, q ≠ selfId := fun q hq => h q (List.mem_cons_of_mem p hq)
    have hstep : connectToPeerSess selfId st p =
        (st.1 ++ [{ peerId := p, role := Role.initiator }],
         st.2 ++ [OutMsg.offer p]) := by
      simp [connectToPeerSess, hp]
    have hrec := ih (connectToPeerSess selfId st p) h2
    rw [hstep] at hrec
    simp only [discoverHandler, List.foldl_cons] at hrec ⊢
    rw [hstep, hrec]
    simp [List.append_assoc]

/-! ## Claim theorems -/

/-- C1 counterexample: the `request` handler for a request from peer "p2"
sends exactly one `offer` (and hence no `answer`), and leaves the remote
description unset — contrary to the claim that it sets the received offer
as the remote description and sends an `answer`, never an `offer`. -/
theorem request_handler_sends_offer_cex :
    (requestHandler "p2" "sdpO").2 = [OutMsg.offer "p2"] ∧
    (requestHandler "p2" "sdpO").1.remoteDesc = none :=
  ⟨rfl, rfl⟩

/-- C1 amended: for every incoming `request` message, the handler acts in
the INITIATOR role: it creates a fresh peer connection, attaches the local
tracks, sets its own freshly created offer as the local description (the
remote description stays unset), and sends exactly one `offer` (never an
`answer`) to the requesting peer; the remote description is set only later,
when the peer's `answer` with a matching socketId arrives. -/
theorem request_handler_initiator_role (fromPeer offerSdp answerSdp : String) :
    (requestHandler fromPeer offerSdp).1.tracksAttached = true ∧
    (requestHandler fromPeer offerSdp).1.localDesc = some offerSdp ∧
    (requestHandler fromPeer offerSdp).1.remoteDesc = none ∧
    (requestHandler fromPeer offerSdp).2 = [OutMsg.offer fromPeer] ∧
    (reqConnStep (requestHandler fromPeer offerSdp).1
        (InMsg.answer fromPeer answerSdp)).remoteDesc = some answerSdp := by
  refine ⟨rfl, rfl, rfl, rfl, ?_⟩
  simp [requestHandler, reqConnStep]

/-- C2 counterexample: on the connection created by `connectToPeer "p2"`,
an ICE candidate that arrives while the remote description is still unset
is applied at once — and applied twice (two identical handlers) — while the
remote description remains unset, contrary to queue-then-flush-exactly-once. -/
theorem ice_candidate_unqueued_cex :
    (connStep (connectToPeerConn "p2" "sdpO")
        (InMsg.iceCandidate "p2" (some "cand1"))).remoteDesc = none ∧
    (connStep (connectToPeerConn "p2" "sdpO")
        (InMsg.iceCandidate "p2" (some "cand1"))).applied = ["cand1", "cand1"] := by
  refine ⟨?_, ?_⟩ <;> simp [connStep, connectToPeerConn]

/-- C2 amended: there is no candidate queue.  An `ice-candidate` message
whose socketId matches the peer and which carries a candidate is applied
immediately on receipt, regardless of whether the remote description is set
(which it never changes); on a `connectToPeer`-created connection it is
applied twice (two identical registered handlers), on a `request`-created
connection once. -/
theorem ice_candidate_applied_immediately (s : ConnState) (c : String) :
    (connStep s (InMsg.iceCandidate s.peerId (some c))).applied =
      s.applied ++ [c, c] ∧
    (connStep s (InMsg.iceCandidate s.peerId (some c))).remoteDesc =
      s.remoteDesc ∧
    (reqConnStep s (InMsg.iceCandidate s.peerId (some c))).applied =
      s.applied ++ [c] := by
  refine ⟨?_, ?_, ?_⟩ <;> simp [connStep, reqConnStep]

/-- C3 counterexample: joining with no token emits NO event to the caller
(in particular no authentication error is surfaced), contrary to the claim
that an `AuthenticationRequired` error is immediately surfaced. -/
theorem join_without_token_silent_cex :
    (joinRoomAuth none).events = [] :=
  rfl

/-- C3 amended: a join with no `jwtToken` configured opens no signaling
connection (it returns before `io(...)` is reached, so no network attempt
is made), logs "JWT Token is Required" to the console, and surfaces no
error event of any kind to the caller. -/
theorem join_without_token_behavior :
    joinRoomAuth none =
      { socketOpened := false,
        console := [ConsoleLine.error "JWT Token is Required"],
        events := [] } :=
  rfl

/-- C4 counterexample: with self = "p1", receiving `discover` listing
["p2"] and then a `request` from "p2" (the trace of symmetric simultaneous
discovery) leaves TWO connections for the identity "p2", and both creation
paths acted as initiator — contrary to at-most-one-connection-per-identity
and to any lexicographic tie break. -/
theorem duplicate_connection_cex :
    countConns (requestHandlerSess "p2"
        (discoverHandler "p1" ["p2"] ([], []))).1 "p2" = 2 ∧
    (requestHandlerSess "p2"
        (discoverHandler "p1" ["p2"] ([], []))).1.all
      (fun c => c.role == Role.initiator) = true := by
  refine ⟨?_, ?_⟩ <;> decide

/-- C4 amended: connection creation performs no per-identity
deduplication and no lexicographic tie break: every `discover`-listed peer
distinct from self and every incoming `request` unconditionally appends a
fresh connection in the initiator role (each sending an `offer`), so the
count of connections for one identity grows by one each time and duplicate
connections for the same identity are created. -/
theorem connection_creation_no_dedup (selfId p : String)
    (st : List SessConn × List OutMsg) (h : p ≠ selfId) :
    (discoverHandler selfId [p] st).1 =
      st.1 ++ [{ peerId := p, role := Role.initiator }] ∧
    (requestHandlerSess p st).1 =
      st.1 ++ [{ peerId := p, role := Role.initiator }] ∧
    countConns (discoverHandler selfId [p] st).1 p = countConns st.1 p + 1 ∧
    countConns (requestHandlerSess p st).1 p = countConns st.1 p + 1 ∧
    (discoverHandler selfId [p] st).2 = st.2 ++ [OutMsg.offer p] ∧
    (requestHandlerSess p st).2 = st.2 ++ [OutMsg.offer p] := by
  refine ⟨?_, ?_, ?_, ?_, ?_, ?_⟩ <;>
    simp [discoverHandler, connectToPeerSess, requestHandlerSess, h,
      countConns, List.filter_append]

/-- C4 witness: instantiation of `connection_creation_no_dedup` at
self = "p1", peer = "p2", starting from the empty session. -/
theorem connection_creation_no_dedup_witness :
    (discoverHandler "p1" ["p2"] ([], [])).1 =
      ([] : List SessConn) ++ [{ peerId := "p2", role := Role.initiator }] ∧
    (requestHandlerSess "p2" ([], [])).1 =
      ([] : List SessConn) ++ [{ peerId := "p2", role := Role.initiator }] ∧
    countConns (discoverHandler "p1" ["p2"] ([], [])).1 "p2" =
      countConns ([] : List SessConn) "p2" + 1 ∧
    countConns (requestHandlerSess "p2" ([], [])).1 "p2" =
      countConns ([] : List SessConn) "p2" + 1 ∧
    (discoverHandler "p1" ["p2"] ([], [])).2 =
      ([] : List OutMsg) ++ [OutMsg.offer "p2"] ∧
    (requestHandlerSess "p2" ([], [])).2 =
      ([] : List OutMsg) ++ [OutMsg.offer "p2"] :=
  connection_creation_no_dedup "p1" "p2" ([], []) (by decide)

/-- C6: a `discovered` peer-list message (the incoming `discover` event of
the code) listing N peers, none equal to self, creates exactly N
connections, each in the initiator role, and emits exactly one `offer` per
listed peer. -/
theorem discovered_creates_initiators (selfId : String) (peers : List String)
    (h : ∀ p ∈ peers, p ≠ selfId) :
    (discoverHandler selfId peers ([], [])).1.length = peers.length ∧
    (∀ c ∈ (discoverHandler selfId peers ([], [])).1,
      c.role = Role.initiator) ∧
    (discoverHandler selfId peers ([], [])).2 = peers.map OutMsg.offer := by
  have hr := discoverHandler_all_new selfId peers ([], []) h
  refine ⟨?_, ?_, ?_⟩
  · rw [hr]; simp
  · intro c hc
    rw [hr] at hc
    simp only [List.nil_append, List.mem_map] at hc
    obtain ⟨p, _, rfl⟩ := hc
    rfl
  · rw [hr]; simp

/-- C6 witness: instantiation of `discovered_creates_initiators` at
self = "s" and peer list ["a", "b"]. -/
theorem discovered_creates_initiators_witness :
    (discoverHandler "s" ["a", "b"] ([], [])).1.length = 2 ∧
    (discoverHandler "s" ["a", "b"] ([], [])).2 =
      [OutMsg.offer "a", OutMsg.offer "b"] := by
  have h := discovered_creates_initiators "s" ["a", "b"] (by decide)
  exact ⟨h.1, h.2.2⟩

/-- C5 counterexample: leaving a room with K = 1 active peer connection
performs zero close operations (not one) and leaves the connection
untouched — contrary to "exactly K close operations". -/
theorem leave_room_zero_close_cex :
    (leaveRoom "room1" [{ id := "s1", trackCount := 2 }]
        [{ peerId := "p2", role := Role.initiator }] true).closeOps = 0 ∧
    (leaveRoom "room1" [{ id := "s1", trackCount := 2 }]
        [{ peerId := "p2", role := Role.initiator }] true).conns =
      [{ peerId := "p2", role := Role.initiator }] :=
  ⟨rfl, rfl⟩

/-- C5 amended: a leave stops every track of every registered stream (one
stop operation per track), clears the stream registry to zero entries,
calls disconnect on the signaling socket when one exists, and emits
`left-room` with the room id — but it performs ZERO close operations on
peer connections, which are left untouched. -/
theorem leave_room_behavior (roomId : String) (vl : List LeaveStream)
    (conns : List SessConn) (socketConnected : Bool) :
    (leaveRoom roomId vl conns socketConnected).stopOps = totalTracks vl ∧
    (leaveRoom roomId vl conns socketConnected).videoList = [] ∧
    (leaveRoom roomId vl conns socketConnected).closeOps = 0 ∧
    (leaveRoom roomId vl conns socketConnected).conns = conns ∧
    (leaveRoom roomId vl conns socketConnected).disconnectCalled =
      socketConnected ∧
    (leaveRoom roomId vl conns socketConnected).events =
      [Event.leftRoom roomId] := by
  refine ⟨?_, rfl, rfl, rfl, rfl, rfl⟩
  show vl.foldl (fun n v => n + v.trackCount) 0 = totalTracks vl
  rw [totalTracks, List.sum_eq_foldl, List.foldl_map]

/-- C7 counterexample: a failing `addIceCandidate` produces a console error
and emits NO event at all — the failure is swallowed without any
`peer-error` (or other) event, contrary to the claim. -/
theorem negotiation_failure_no_event_cex :
    (addIceCandidateOutcome false).1 =
      [ConsoleLine.error "Error adding ICE candidate: "] ∧
    (addIceCandidateOutcome false).2 = [] :=
  ⟨rfl, rfl⟩

/-- C7 amended: every per-peer negotiation failure — setting the remote
description, applying an ICE candidate, the outer catch of the `request`
handler, and the outer catch of `connectToPeer` — is logged to the console
and emits no event whatsoever to the caller; no `peer-error` event is
produced on these paths. -/
theorem negotiation_failures_console_only (ok : Bool) :
    (setRemoteDescOutcome false).1 ≠ [] ∧ (setRemoteDescOutcome ok).2 = [] ∧
    (addIceCandidateOutcome false).1 ≠ [] ∧
    (addIceCandidateOutcome ok).2 = [] ∧
    (acceptRequestCatch false).1 ≠ [] ∧ (acceptRequestCatch ok).2 = [] ∧
    (connectToPeerCatch false).1 ≠ [] ∧ (connectToPeerCatch ok).2 = [] := by
  cases ok <;> refine ⟨?_, rfl, ?_, rfl, ?_, rfl, ?_, rfl⟩ <;> decide

/-- C8: registry add is idempotent — `joinedRoomUpdate` for an identifier
already present is a no-op on the registry, adding twice equals adding
once, and adding a fresh identifier twice leaves exactly one entry for it. -/
theorem registry_add_idempotent (vl : List VideoEntry) (s : String)
    (l m : Bool) :
    (vl.any (fun v => v.id == s) = true → joinedRoomUpdate vl s l = vl) ∧
    joinedRoomUpdate (joinedRoomUpdate vl s l) s m = joinedRoomUpdate vl s l ∧
    (vl.any (fun v => v.id == s) = false →
      countId (joinedRoomUpdate vl s l) s = 1) := by
  refine ⟨?_, ?_, ?_⟩
  · intro hfound
    simp [joinedRoomUpdate, hfound]
  · by_cases hfound : vl.any (fun v => v.id == s) = true
    · simp [joinedRoomUpdate, hfound]
    · have hf : vl.any (fun v => v.id == s) = false :=
        Bool.eq_false_iff.mpr hfound
      simp [joinedRoomUpdate, hf, List.any_append]
  · intro hf
    have hnil : vl.filter (fun v => v.id == s) = [] := by
      rw [List.filter_eq_nil_iff]
      intro a ha
      have := List.any_eq_false.mp hf a ha
      simpa using this
    simp [joinedRoomUpdate, hf, countId, List.filter_append, hnil]

/-- C8 witness: instantiation of `registry_add_idempotent` at the
one-entry registry holding id "a", with both hypotheses discharged. -/
theorem registry_add_idempotent_witness :
    joinedRoomUpdate [{ id := "a", muted := true, isLocal := true }] "a" false =
      [{ id := "a", muted := true, isLocal := true }] ∧
    countId (joinedRoomUpdate [] "a" false) "a" = 1 :=
  ⟨(registry_add_idempotent [{ id := "a", muted := true, isLocal := true }]
      "a" false true).1 (by decide),
   (registry_add_idempotent [] "a" false true).2.2 (by decide)⟩

/-- C9: evaluation of `joinedRoom` at the failing input (stream id "a",
isLocal = true, empty registry): the registry update completes and the
entry is pushed, but the call then throws a ReferenceError at the
`nextTick` line — the identifier is never imported or defined — so the
`joined-room` event is never emitted, contrary to the claim that it fires
exactly once per call. -/
theorem joined_room_throws_before_emit :
    (joinedRoom [] "a" true).videoList =
      [{ id := "a", muted := true, isLocal := true }] ∧
    (joinedRoom [] "a" true).events = [] ∧
    (joinedRoom [] "a" true).thrown =
      some "ReferenceError: nextTick is not defined" :=
  ⟨rfl, rfl, rfl⟩

/-- C10: with an empty video list, `getCanvas` warns and returns null, so
`capture` — which calls `toDataURL` on that result unconditionally — raises
an error instead of returning a value; with a non-empty video list,
`capture` returns a data URL in the configured screenshot format. -/
theorem capture_null_and_format (format : String) (v : VideoElem)
    (rest : List VideoElem) :
    (getCanvas []).1 = none ∧
    (getCanvas []).2 =
      [ConsoleLine.warn "No video element found for capturing."] ∧
    capture [] format = Except.error "TypeError: getCanvas returned null" ∧
    ∃ payload, capture (v :: rest) format =
      Except.ok ("data:" ++ format ++ ";base64," ++ payload) := by
  refine ⟨rfl, rfl, rfl,
    ⟨toString v.clientWidth ++ "x" ++ toString v.clientHeight, ?_⟩⟩
  simp [capture, getCanvas, Canvas.toDataURL, String.append_assoc]

end VueWebRTC
